import Mathlib

/-!
A shallow embedding of the role-composition engine of the `roles` library
(`src/roles/role.py`, `src/roles/context.py`, `src/roles/factory.py`).

Modelling conventions:

* Python classes are values of `PyCls`.  User-declared classes (data classes
  and role classes) are `PyCls.decl n` for an id `n`; the single-inheritance
  chains used throughout the repository are recorded in a `World`
  (`parent`, with `parent_lt` guaranteeing acyclicity).
* `RoleType.newclass` is memoized by `@cached` with the key
  `(self, cls, rolebases)` (the bound-method call `self.newclass(cls,
  rolebases)` passes `self` as the first positional argument).  The cache is
  process-wide and unbounded, so within one process the class object returned
  for a key is unique: object identity of engine-created composite classes is
  exactly key equality.  The constructor `PyCls.comp self cls rolebases`
  embeds that key, and equality of `PyCls` values models Python object
  identity (`is`).  In every engine code path (`assign`, `revoke`) the bases
  passed to `newclass` are user-declared classes, hence `rolebases : List Nat`.
* Member-name sets (`__dict__.keys()`) are `Finset String`.
* `assign`/`revoke` use the default `instance` application strategy of
  `role.py`, which swaps `subj.__class__` in place and returns the same
  object; a `Subject` carries its Python identity in `id`, so "returns the
  subject itself" is `= s` (same `id`, same fields).
-/

namespace RolesLib

/-- The statically declared class universe: for each declared class id its
(single) declared superclass, its own `__dict__` key set, and whether its
metaclass was declared to be `RoleType`.  `parent_lt` captures that class
hierarchies are acyclic (a class is declared after its superclass). -/
structure World where
  parent : Nat → Option Nat
  dictKeys : Nat → Finset String
  isRole : Nat → Bool
  parent_lt : ∀ n m, parent n = some m → m < n

/-- The superclass chain of declared class `n` (the `__mro__` without the
terminal `object`), computed with explicit fuel.  Because `parent` is
strictly decreasing (`parent_lt`), a chain starting at `n` has at most
`n + 1` entries, so fuel `n + 1` computes the whole chain. -/
def declChainAux (W : World) : Nat → Nat → List Nat
  | 0, _ => []
  | fuel + 1, n =>
    n :: (match W.parent n with
          | some m => declChainAux W fuel m
          | none => [])

/-- The `__mro__` of declared class `n`, minus the terminal `object`. -/
def World.declChain (W : World) (n : Nat) : List Nat :=
  declChainAux W (n + 1) n

/-- Python classes reachable in the composition engine.  `decl n` is a
user-declared class; `comp self cls rolebases` is the composite created by
the memoized `RoleType.newclass(self, cls, rolebases)` — the constructor
arguments are exactly the `@cached` key, so equality models object
identity. -/
inductive PyCls where
  | decl (n : Nat)
  | comp (selfRole : Nat) (cls : PyCls) (rolebases : List Nat)
deriving DecidableEq, Repr

/-- `RoleType.newclass(self, cls, rolebases)`: returns the cached composite
class for the key `(self, cls, rolebases)` (building `type(name, rolebases,
d)` on first use; the generated name is diagnostic only and plays no part in
identity). -/
def newclass (selfRole : Nat) (cls : PyCls) (rolebases : List Nat) : PyCls :=
  .comp selfRole cls rolebases

/-- Does `r` appear in the mro of declared class `n`
(i.e. `issubclass(decl n, decl r)`)? -/
def declIsSub (W : World) (n r : Nat) : Bool :=
  decide (r ∈ W.declChain n)

/-- Is some class in the mro of declared class `n` declared with metaclass
`RoleType`?  (Metaclasses are inherited along the chain.) -/
def declIsRole (W : World) (n : Nat) : Bool :=
  (W.declChain n).any W.isRole

/-- `issubclass(c, decl r)`: a composite is a subclass of exactly the
ancestors of its bases (it is itself never a declared class). -/
def PyCls.isSub (W : World) : PyCls → Nat → Bool
  | .decl n, r => declIsSub W n r
  | .comp _ _ rb, r => rb.any fun m => declIsSub W m r

/-- `isinstance(cls, RoleType)`: for a declared class, whether `RoleType` is
its (inherited) metaclass; for a composite, `type(name, bases, d)` computes
the most derived metaclass of the bases, which is `RoleType` exactly when
some base has it. -/
def PyCls.isRoleType (W : World) : PyCls → Bool
  | .decl n => declIsRole W n
  | .comp _ _ rb => rb.any (declIsRole W)

/-- `cls.__bases__`, restricted to declared classes (every composite the
engine creates has only declared classes as bases).  A declared class's
bases are its declared parent, or `object` (not represented) if none. -/
def PyCls.basesIds (W : World) : PyCls → List Nat
  | .decl n => (W.parent n).toList
  | .comp _ _ rb => rb

/-- The fixed bookkeeping names excluded by `class_fields`
(`EXCLUDED` in `role.py`). -/
def EXCLUDED : Finset String :=
  {"__doc__", "__module__", "__dict__", "__weakref__", "__metaclass__", "__slots__"}

/-- Union of the current `__dict__` key sets along the declared chain of `n`,
reading the (mutable) class table `tbl`. -/
def chainKeysAt (W : World) (tbl : Nat → Finset String) (n : Nat) : Finset String :=
  ((W.declChain n).map tbl).foldl (· ∪ ·) ∅

/-- `class_fields(cls)` computed against the class table `tbl`: walk
`cls.__mro__` up to (but excluding) `object`/`type`, collect all `__dict__`
keys, and remove `EXCLUDED`.  For a composite class the C3 linearization
visits the composite itself — whose own dict holds only bookkeeping names,
all in `EXCLUDED` — and then every class of each base's chain before
`object`, so the collected set is the union over the bases' chains. -/
def classFieldsAt (W : World) (tbl : Nat → Finset String) : PyCls → Finset String
  | .decl n => chainKeysAt W tbl n \ EXCLUDED
  | .comp _ _ rb => ((rb.map (chainKeysAt W tbl)).foldl (· ∪ ·) ∅) \ EXCLUDED

/-- `class_fields(cls)` with the declared (unmutated) class dictionaries. -/
def class_fields (W : World) : PyCls → Finset String :=
  classFieldsAt W W.dictKeys

/-- The failure kinds of the engine: `TypeError('Can not apply role when
overriding methods: ...')` carrying the colliding names, and the factory's
`NoRoleError`. -/
inductive RoleError where
  | roleConflict (names : Finset String)
  | noRole
deriving DecidableEq

/-- A live subject: its Python object identity, its current behavioral type
(`__class__`, swapped in place by the `instance` strategy), and the keys of
its per-instance `__dict__`. -/
structure Subject where
  id : Nat
  cls : PyCls
  instFields : Finset String
deriving DecidableEq

/-- `RoleType.overrides(self, subj)`: names found both in the role `r` and
in the subject, where the subject contributes its class's fields and its
per-instance `__dict__` keys (`instFields`; empty when the subject has no
`__dict__`). -/
def overrides (W : World) (r : Nat) (cls : PyCls) (instFields : Finset String) : Finset String :=
  class_fields W (.decl r) ∩ (class_fields W cls ∪ instFields)

/-- The ordered component list `assign` passes to `newclass`: for a subject
whose class is already a `RoleType` instance, its bases plus the new role
appended; otherwise `(cls, self)`.  (The second branch only ever sees
declared classes: every composite the engine creates keeps at least one role
base, hence is a `RoleType` instance; the `comp` case is written for
totality.) -/
def newRolebases (W : World) (cls : PyCls) (r : Nat) : List Nat :=
  if cls.isRoleType W then cls.basesIds W ++ [r]
  else
    match cls with
    | .decl n => [n, r]
    | .comp _ _ rb => rb ++ [r]

/-- `RoleType.assign(self, subj)` with the default `instance` strategy:
return the subject unchanged if its class is already a subclass of the role;
otherwise raise on a non-empty `overrides` set (before any mutation — the
class swap happens only after the check), else retag the subject with the
cached composite class. -/
def assign (W : World) (r : Nat) (s : Subject) : Except RoleError Subject :=
  if s.cls.isSub W r then .ok s
  else
    let o := overrides W r s.cls s.instFields
    if o = ∅ then .ok { s with cls := newclass r s.cls (newRolebases W s.cls r) }
    else .error (.roleConflict o)

/-- The class computed by `RoleType.revoke(self, subj)`: unchanged when the
role is not active; otherwise the bases minus the role — the original base
class itself when exactly one base remains (bypassing the cache), else the
cached composite for the remaining bases.  (`rolebases[0]` on an empty list
would be an `IndexError`; that case is unreachable for engine-created
classes and is mapped to the unchanged class.) -/
def revokeCls (W : World) (r : Nat) (cls : PyCls) : PyCls :=
  if cls.isSub W r then
    match (cls.basesIds W).filter (fun m => m ≠ r) with
    | [] => cls
    | [b] => .decl b
    | b₁ :: b₂ :: rest => newclass r cls (b₁ :: b₂ :: rest)
  else cls

/-- `RoleType.revoke(self, subj)` with the `instance` strategy: retag the
subject in place. -/
def revoke (W : World) (r : Nat) (s : Subject) : Subject :=
  { s with cls := revokeCls W r s.cls }

/-- Assign a list of roles in order, stopping at the first failure (each
`assign` raises synchronously). -/
def assignSeq (W : World) (rs : List Nat) (s : Subject) : Except RoleError Subject :=
  match rs with
  | [] => .ok s
  | r :: rest =>
    match assign W r s with
    | .ok s' => assignSeq W rest s'
    | .error e => .error e

/-- Failures escaping a `played_by` scope: either the entry `assign` raised
(before the body ran), or the guarded body raised (re-raised after the
`finally` revocation). -/
inductive PBErr (ε : Type) where
  | assignErr (e : RoleError)
  | bodyErr (e : ε)
deriving DecidableEq

/-- `RoleType.played_by(self, subj)` wrapped around a guarded body.  The
body receives the subject (mutated in place by `assign`) and returns a
result or failure together with the subject's state at scope exit.  Mirrors
the generator: if the subject is already an instance of the role, just yield
it (no assign, no revoke); otherwise assign — a conflict propagates and the
body never runs — then yield inside `try/finally`, so the role is revoked on
the body's state on every exit path and a body failure is re-raised
unchanged afterwards. -/
def played_by {ε α : Type} (W : World) (r : Nat)
    (body : Subject → Except ε α × Subject) (s : Subject) :
    Except (PBErr ε) α × Subject :=
  if s.cls.isSub W r then
    let res := body s
    (res.1.mapError PBErr.bodyErr, res.2)
  else
    match assign W r s with
    | .error e => (.error (.assignErr e), s)
    | .ok s1 =>
      let res := body s1
      (res.1.mapError PBErr.bodyErr, revoke W r res.2)

/-! ## Context stack (`context.py`)

Subjects bound in a context live on a heap keyed by object identity, because
two slot names may refer to the same object and `role.revoke(...)` mutates
the object's `__class__` in place.  The per-thread stack holds the context
objects (`threading.local` isolates stacks per thread; a single stack models
one thread). -/

/-- A heap object: current behavioral type and instance-`__dict__` keys. -/
structure PyObj where
  cls : PyCls
  fields : Finset String
deriving DecidableEq

/-- Heap: object id to object. -/
abbrev Heap := List (Nat × PyObj)

/-- `role.revoke(obj)` applied in place to the heap object `oid`. -/
def heapRevoke (W : World) (r : Nat) (oid : Nat) (h : Heap) : Heap :=
  h.map fun e => if e.1 = oid then (e.1, ⟨revokeCls W r e.2.cls, e.2.fields⟩) else e

/-- A `ManagedContext`: the context object's identity, the `(slot, role)`
bindings in keyword order (Python dicts preserve insertion order), and the
context object's attribute map from slot name to the bound object's id
(`getattr(ctx, var)`; the bound attributes are assumed present). -/
structure ManagedCtx where
  ctxId : Nat
  bindings : List (String × Nat)
  slot : String → Nat

/-- The revocation loop of `ManagedContext.__exit__`:
`for var, role in self.bindings.items(): role.revoke(getattr(ctx, var))`,
visiting the bindings in the order they were recorded. -/
def revokeBindings (W : World) (slot : String → Nat) : List (String × Nat) → Heap → Heap
  | [], h => h
  | b :: rest, h => revokeBindings W slot rest (heapRevoke W b.2 (slot b.1) h)

/-- `ManagedContext.__exit__`: pop the top of the stack, `assert` it is the
frame's own context object (a mismatched pop — or a pop from an empty stack
— is a fatal invariant violation, modelled as `none`), then run the
revocation loop over the recorded bindings. -/
def mcExit (W : World) (mc : ManagedCtx) (stack : List Nat) (h : Heap) :
    Option (List Nat × Heap) :=
  match stack with
  | [] => none
  | top :: rest =>
    if top = mc.ctxId then some (rest, revokeBindings W mc.slot mc.bindings h)
    else none

/-- Modelled from the spec: the exit step as the spec's words describe it,
revoking the recorded bindings "in the reverse of the order they were
applied".  Used only to compare against `mcExit`, which follows the code. -/
def mcExitRevSpec (W : World) (mc : ManagedCtx) (stack : List Nat) (h : Heap) :
    Option (List Nat × Heap) :=
  match stack with
  | [] => none
  | top :: rest =>
    if top = mc.ctxId then some (rest, revokeBindings W mc.slot mc.bindings.reverse h)
    else none

/-- The stack push performed by `ManagedContext.__enter__`
(`self.stack.append(ctx)`; the most recent context is at the head here,
mirroring Python's append-at-the-tail list). -/
def pushCtx (c : Nat) (stack : List Nat) : List Nat := c :: stack

/-- The stack pop performed by `ManagedContext.__exit__` (`self.stack.pop()`). -/
def popCtx (stack : List Nat) : List Nat := stack.tail

/-- `CurrentContextManager.current_context`: `self.__dict__["__stack"][-1]`,
catching `IndexError` and returning `None` (`none`) on an empty stack. -/
def current_context (stack : List Nat) : Option Nat := stack.head?

/-- The context-stack error kind named by the spec. -/
inductive ContextError where
  | noActiveContext
deriving DecidableEq

/-- Modelled from the spec: a `current()` that "fails with
`NoActiveContextError` if the stack is empty" (spec §4.4/§7); the repository
has no such error class — `current_context` returns `None` instead.  Used
only to compare against `current_context`. -/
def currentContextSpec (stack : List Nat) : Except ContextError Nat :=
  match stack with
  | [] => .error .noActiveContext
  | top :: _ => .ok top

/-! ## Role factory (`factory.py`) -/

/-- Lookup in the `_factory` registration dict. -/
def assocGet : List (Nat × Nat) → Nat → Option Nat
  | [], _ => none
  | e :: rest, k => if e.1 = k then some e.2 else assocGet rest k

/-- `self._factory[cls] = rolecls`: replace an existing key or add a new
entry. -/
def assocSet (l : List (Nat × Nat)) (k v : Nat) : List (Nat × Nat) :=
  if (assocGet l k).isSome then l.map fun e => if e.1 = k then (k, v) else e
  else (k, v) :: l

/-- A `RoleFactoryType` role: the generic role class itself (`self`),
whether `self._factory`/`self._strict` have been set (first `register`
call), the registration dict, the stored `_strict` flag, and the `@cached`
memo of `lookup`.  The `@cached` cache key is `(self, cls)`; a single
factory role is modelled, so the key is the class.  The wrapper stores
nothing when the wrapped call raises, so only successful lookups appear. -/
structure RoleFactory where
  selfRole : Nat
  hasFactory : Bool
  factory : List (Nat × Nat)
  strict : Bool
  lookupCache : List (PyCls × Nat)

/-- `RoleFactoryType.register(self, cls, rolecls, strict)`: on the first
call (`AttributeError` branch) create `_factory`, record `_strict` and
clear the `lookup` cache; on later calls only update `_factory` — the
`strict` argument is ignored, `_strict` keeps its first value, and the
`lookup` cache is *not* cleared. -/
def RoleFactory.register (f : RoleFactory) (cls rolecls : Nat) (strict : Bool) :
    RoleFactory :=
  if f.hasFactory then { f with factory := assocSet f.factory cls rolecls }
  else { f with hasFactory := true, factory := [(cls, rolecls)],
                strict := strict, lookupCache := [] }

/-! C3 linearization (CPython's mro algorithm), over declared-class ids:
repeatedly emit the first head that occurs in no list's tail, removing it
from every list it heads; fail (as `type()` would with a `TypeError`) when
no head qualifies. -/

/-- Is `x` absent from the tail of every list?  (The C3 head condition.) -/
def headNotInTails (ls : List (List Nat)) (x : Nat) : Bool :=
  ls.all fun l => !((l.drop 1).contains x)

/-- Scan the lists in order for the first head satisfying the C3 head
condition against the full list set. -/
def c3SelectAux (full : List (List Nat)) : List (List Nat) → Option Nat
  | [] => none
  | [] :: rest => c3SelectAux full rest
  | (x :: _) :: rest =>
    if headNotInTails full x then some x else c3SelectAux full rest

/-- Remove a selected head from the front of every list it heads (by the
head condition it occurs in no tail). -/
def c3Remove (x : Nat) (ls : List (List Nat)) : List (List Nat) :=
  ls.map fun l =>
    match l with
    | [] => []
    | y :: t => if y = x then t else y :: t

/-- The C3 merge loop with explicit fuel (each step removes at least one
element, so the total element count plus one suffices). -/
def c3MergeAux : Nat → List (List Nat) → Option (List Nat)
  | 0, _ => none
  | fuel + 1, ls =>
    if ls.all List.isEmpty then some []
    else
      match c3SelectAux ls ls with
      | none => none
      | some x => (c3MergeAux fuel (c3Remove x ls)).map (x :: ·)

/-- C3 merge of linearizations. -/
def c3Merge (ls : List (List Nat)) : Option (List Nat) :=
  c3MergeAux (ls.foldl (fun acc l => acc + l.length) 0 + 1) ls

/-- The ids visited by `for t in cls.__mro__` (without the terminal
`object`, against which the repository never registers): for a declared
class its chain, most specific first; for an engine-created composite,
CPython computes `C3(comp) = comp :: merge(mro(B1), …, mro(Bk), [B1…Bk])` —
the composite itself can never equal a registration key (registrations are
keyed by declared classes), so the walk is the merge of the bases'
linearizations with the base-order list.  An inconsistent hierarchy, where
the `type()` call building the composite would already have raised, yields
the empty walk. -/
def mroIds (W : World) : PyCls → List Nat
  | .decl n => W.declChain n
  | .comp _ _ rb =>
    match c3Merge (rb.map W.declChain ++ [rb]) with
    | some l => l
    | none => []

/-- The `for t in cls.__mro__: rolecls = get(t); if rolecls: return rolecls`
loop: first registered match in mro order. -/
def firstRegistered (reg : List (Nat × Nat)) : List Nat → Option Nat
  | [] => none
  | t :: rest =>
    match assocGet reg t with
    | some rc => some rc
    | none => firstRegistered reg rest

/-- Lookup in the `@cached` memo of `RoleFactoryType.lookup`. -/
def flLookup : List (PyCls × Nat) → PyCls → Option Nat
  | [], _ => none
  | e :: rest, c => if e.1 = c then some e.2 else flLookup rest c

/-- The body of `RoleFactoryType.lookup(self, cls)` without its `@cached`
decorator: first registered match walking the mro of the *current*
registry; on no match, `NoRoleError` if `_strict`, else fall back to the
generic role itself. -/
def lookupRaw (f : RoleFactory) (W : World) (cls : PyCls) : Except RoleError Nat :=
  match firstRegistered f.factory (mroIds W cls) with
  | some rc => .ok rc
  | none => if f.strict then .error .noRole else .ok f.selfRole

/-- `RoleFactoryType.lookup(self, cls)` with its `@cached` memoization: a
cache hit returns the memoized role — even if the registry has changed
since it was stored; a miss runs the body against the current registry and
caches the result on success (`cached` stores nothing when the call
raises). -/
def RoleFactory.lookup (f : RoleFactory) (W : World) (cls : PyCls) :
    Except RoleError Nat × RoleFactory :=
  match flLookup f.lookupCache cls with
  | some rc => (.ok rc, f)
  | none =>
    match lookupRaw f W cls with
    | .ok rc => (.ok rc, { f with lookupCache := (cls, rc) :: f.lookupCache })
    | .error e => (.error e, f)

/-- `RoleFactoryType.assign(self, subj)`:
`RoleType.assign(self.lookup(type(subj)), subj)`, threading the lookup
cache. -/
def RoleFactory.assignF (f : RoleFactory) (W : World) (s : Subject) :
    Except RoleError Subject × RoleFactory :=
  match f.lookup W s.cls with
  | (.ok rc, f') => (assign W rc s, f')
  | (.error e, f') => (.error e, f')

/-! ## The `@cached` wrapper on `class_fields` (`role.py`)

`class_fields` is memoized on its key (the class object); the underlying
computation reads the *current* class dictionaries, so the mutable class
table is a separate argument. -/

/-- Lookup in the `@cached` cache of `class_fields` (key: the class). -/
def cfLookup : List (PyCls × Finset String) → PyCls → Option (Finset String)
  | [], _ => none
  | e :: rest, c => if e.1 = c then some e.2 else cfLookup rest c

/-- The `@cached` wrapper applied to `class_fields`: return the memoized
value if the key is present (the current class table `tbl` is not
consulted); otherwise compute from `tbl` and store. -/
def class_fields_cached (W : World) (tbl : Nat → Finset String)
    (cache : List (PyCls × Finset String)) (c : PyCls) :
    Finset String × List (PyCls × Finset String) :=
  match cfLookup cache c with
  | some v => (v, cache)
  | none => (classFieldsAt W tbl c, (c, classFieldsAt W tbl c) :: cache)

/-- `RoleType.overrides` as executed at `assign` time: both `class_fields`
calls go through the cache, while the subject's per-instance `__dict__` keys
are read fresh. -/
def overridesCached (W : World) (tbl : Nat → Finset String)
    (cache : List (PyCls × Finset String)) (roleCls subjCls : PyCls)
    (instFields : Finset String) :
    Finset String × List (PyCls × Finset String) :=
  let p1 := class_fields_cached W tbl cache roleCls
  let p2 := class_fields_cached W tbl p1.2 subjCls
  (p1.1 ∩ (p2.1 ∪ instFields), p2.2)

/-! ## Helper lemmas -/

lemma self_mem_declChain (W : World) (n : Nat) : n ∈ W.declChain n := by
  simp [World.declChain, declChainAux]

lemma declIsSub_self (W : World) (n : Nat) : declIsSub W n n = true := by
  simp [declIsSub, self_mem_declChain]

lemma ne_of_declIsSub_eq_false (W : World) {n r : Nat}
    (h : declIsSub W n r = false) : n ≠ r := by
  intro he
  subst he
  rw [declIsSub_self] at h
  cases h

/-- Inversion of a successful `assign` on a subject that does not already
play the role: the result is the subject retagged with the cached composite
for the key computed from its current class. -/
lemma assign_ok_inv (W : World) (r : Nat) (s t : Subject)
    (hns : s.cls.isSub W r = false) (h : assign W r s = .ok t) :
    t = { s with cls := newclass r s.cls (newRolebases W s.cls r) } := by
  simp only [assign, hns, Bool.false_eq_true, if_false] at h
  split at h
  · exact (Except.ok.injEq _ _).mp h.symm |>.symm ▸ rfl
  · cases h

/-- A successful `assign` computes the new class from the old class alone
(and the conflict check from class plus instance fields): two subjects of
identical behavioral type that both succeed end with identical behavioral
types. -/
lemma assign_ok_cls_eq (W : World) (r : Nat) {s1 s2 t1 t2 : Subject}
    (hcls : s1.cls = s2.cls)
    (h1 : assign W r s1 = .ok t1) (h2 : assign W r s2 = .ok t2) :
    t1.cls = t2.cls := by
  cases hb : s1.cls.isSub W r with
  | true =>
    have hb2 : s2.cls.isSub W r = true := hcls ▸ hb
    simp only [assign, hb, hb2, if_true] at h1 h2
    have e1 : s1 = t1 := by cases h1; rfl
    have e2 : s2 = t2 := by cases h2; rfl
    rw [← e1, ← e2, hcls]
  | false =>
    have hb2 : s2.cls.isSub W r = false := hcls ▸ hb
    rw [assign_ok_inv W r s1 t1 hb h1, assign_ok_inv W r s2 t2 hb2 h2]
    simp [hcls]

/-- The `__exit__` revocation loop is the in-order composition of the
individual `role.revoke` calls. -/
lemma revokeBindings_eq_foldl (W : World) (slot : String → Nat)
    (bs : List (String × Nat)) (h : Heap) :
    revokeBindings W slot bs h =
      bs.foldl (fun hh b => heapRevoke W b.2 (slot b.1) hh) h := by
  induction bs generalizing h with
  | nil => rfl
  | cons b rest ih => simp [revokeBindings, List.foldl_cons, ih]

lemma firstRegistered_eq_of_find? (reg : List (Nat × Nat)) (l : List Nat)
    (t rc : Nat)
    (hf : l.find? (fun u => (assocGet reg u).isSome) = some t)
    (hg : assocGet reg t = some rc) :
    firstRegistered reg l = some rc := by
  induction l with
  | nil => cases hf
  | cons u rest ih =>
    cases hgu : assocGet reg u with
    | some v =>
      rw [List.find?_cons] at hf
      simp only [hgu, Option.isSome_some, cond_true, Option.some.injEq] at hf
      subst hf
      rw [hgu] at hg
      cases hg
      simp [firstRegistered, hgu]
    | none =>
      rw [List.find?_cons] at hf
      simp only [hgu, Option.isSome_none, cond_false] at hf
      simp [firstRegistered, hgu, ih hf]

lemma declIsRole_of_isRole (W : World) {n : Nat} (h : W.isRole n = true) :
    declIsRole W n = true := by
  simp [declIsRole, List.any_eq_true]
  exact ⟨n, self_mem_declChain W n, h⟩

lemma firstRegistered_eq_none_of_all (reg : List (Nat × Nat)) (l : List Nat)
    (h : l.all (fun u => (assocGet reg u).isNone) = true) :
    firstRegistered reg l = none := by
  induction l with
  | nil => rfl
  | cons u rest ih =>
    rw [List.all_cons, Bool.and_eq_true] at h
    have hnone : assocGet reg u = none := by
      cases h' : assocGet reg u
      · rfl
      · rw [h'] at h; cases h.1
    simp [firstRegistered, hnone, ih h.2]

/-! ## Concrete class universes for witnesses and counterexamples -/

/-- A concrete class universe: no class declares a superclass, id 0 is a
plain data class, ids `1` and above are role classes, and every class
dictionary is empty. -/
def W1 : World where
  parent := fun _ => none
  dictKeys := fun _ => ∅
  isRole := fun n => decide (1 ≤ n)
  parent_lt := by intro n m h; simp at h

/-- Like `W1`, except the data class 0 and the role class 1 both declare a
member named `transfer`. -/
def W2 : World where
  parent := fun _ => none
  dictKeys := fun n => if n ≤ 1 then {"transfer"} else ∅
  isRole := fun n => decide (1 ≤ n)
  parent_lt := by intro n m h; simp at h

/-! ## Claims -/

/-- C1: for a role `r` and a subject that does not already play it, `assign`
raises the role-conflict error carrying exactly the member names that occur
both in the role's full composition chain (bookkeeping names excluded) and
in the union of the subject's current behavioral type's members with its
per-instance fields, whenever that intersection is non-empty — and the
error is raised before the class swap, so the subject is untouched; when
the intersection is empty, `assign` succeeds, retagging the subject with the
cached composite. -/
theorem assign_conflict_detection (W : World) (r : Nat) (s : Subject)
    (h : s.cls.isSub W r = false) :
    (overrides W r s.cls s.instFields ≠ ∅ →
      assign W r s = .error (.roleConflict (overrides W r s.cls s.instFields)))
  ∧ (overrides W r s.cls s.instFields = ∅ →
      assign W r s = .ok { s with cls := newclass r s.cls (newRolebases W s.cls r) }) := by
  constructor
  · intro hne
    simp [assign, h, hne]
  · intro he
    simp [assign, h, he]

/-- Witness for C1 at a concrete conflicting input: role 1 and data class 0
both declare `transfer`. -/
theorem assign_conflict_detection_witness :
    (PyCls.decl 0).isSub W2 1 = false
  ∧ overrides W2 1 (PyCls.decl 0) ∅ ≠ ∅
  ∧ assign W2 1 ⟨5, .decl 0, ∅⟩ =
      .error (.roleConflict (overrides W2 1 (PyCls.decl 0) ∅)) :=
  ⟨by decide, by decide,
    (assign_conflict_detection W2 1 ⟨5, .decl 0, ∅⟩ (by decide)).1 (by decide)⟩

/-- C2: `newclass` is memoized on `(self, cls, rolebases)`, and a
successful `assign` computes that key from the subject's current behavioral
type alone — so assigning the same ordered sequence of roles to two
subjects of the same behavioral type yields reference-identical composite
types (`PyCls` equality is cache-key equality, i.e. object identity). -/
theorem assignSeq_cache_determinism (W : World) (rs : List Nat)
    (s1 s2 t1 t2 : Subject) (hcls : s1.cls = s2.cls)
    (h1 : assignSeq W rs s1 = .ok t1) (h2 : assignSeq W rs s2 = .ok t2) :
    t1.cls = t2.cls := by
  induction rs generalizing s1 s2 with
  | nil =>
    cases h1
    cases h2
    exact hcls
  | cons r rest ih =>
    unfold assignSeq at h1 h2
    cases ha1 : assign W r s1 with
    | error e => rw [ha1] at h1; cases h1
    | ok u1 =>
      cases ha2 : assign W r s2 with
      | error e => rw [ha2] at h2; cases h2
      | ok u2 =>
        rw [ha1] at h1
        rw [ha2] at h2
        exact ih _ _ (assign_ok_cls_eq W r hcls ha1 ha2) h1 h2

/-- Witness for C2: two distinct subjects of data class 0 (one with an extra
instance field) receive the identical composite after assigning role 1. -/
theorem assignSeq_cache_determinism_witness :
    assignSeq W1 [1] ⟨10, .decl 0, ∅⟩ = .ok ⟨10, .comp 1 (.decl 0) [0, 1], ∅⟩
  ∧ assignSeq W1 [1] ⟨11, .decl 0, {"x"}⟩ = .ok ⟨11, .comp 1 (.decl 0) [0, 1], {"x"}⟩
  ∧ (Subject.mk 10 (.comp 1 (.decl 0) [0, 1]) ∅).cls
      = (Subject.mk 11 (.comp 1 (.decl 0) [0, 1]) {"x"}).cls :=
  ⟨rfl, rfl,
    assignSeq_cache_determinism W1 [1] ⟨10, .decl 0, ∅⟩ ⟨11, .decl 0, {"x"}⟩
      _ _ rfl rfl rfl⟩

/-- C8: assigning a role the subject already plays (its class is a subclass
of the role) returns the very same subject, unchanged, before the conflict
check or any cache access is reached. -/
theorem assign_already_active_noop (W : World) (r : Nat) (s : Subject)
    (h : s.cls.isSub W r = true) : assign W r s = .ok s := by
  simp [assign, h]

/-- Witness for C8: a subject already playing role 1. -/
theorem assign_already_active_noop_witness :
    (PyCls.comp 1 (.decl 0) [0, 1]).isSub W1 1 = true
  ∧ assign W1 1 ⟨9, .comp 1 (.decl 0) [0, 1], {"x"}⟩ =
      .ok ⟨9, .comp 1 (.decl 0) [0, 1], {"x"}⟩ :=
  ⟨by decide, assign_already_active_noop W1 1 ⟨9, .comp 1 (.decl 0) [0, 1], {"x"}⟩ (by decide)⟩

/-- C3 (amended): for a subject whose behavioral type is its plain declared
data class (no roles active), `revoke(r, assign(r, s))` returns the subject
with its original type restored by object identity — the single remaining
base is returned directly, bypassing the composite cache.  (The claim's
stronger version — identity restoration for any behavioral type not
including `r` — fails when the subject already plays another role; see the
counterexample.) -/
theorem revoke_assign_restores_base (W : World) (b r : Nat) (s t : Subject)
    (hcls : s.cls = .decl b)
    (hrt : (PyCls.decl b).isRoleType W = false)
    (hsub : declIsSub W b r = false)
    (h : assign W r s = .ok t) :
    revoke W r t = s := by
  have hns : s.cls.isSub W r = false := by
    rw [hcls]; simpa [PyCls.isSub] using hsub
  have ht := assign_ok_inv W r s t hns h
  have hbr : b ≠ r := ne_of_declIsSub_eq_false W hsub
  have htcls : t.cls = .comp r (.decl b) [b, r] := by
    rw [ht]; simp [newclass, newRolebases, hcls, hrt]
  have hrc : revokeCls W r t.cls = .decl b := by
    rw [htcls]
    simp [revokeCls, PyCls.isSub, PyCls.basesIds, declIsSub_self,
      List.filter_cons, hbr, newclass]
  show ({ t with cls := revokeCls W r t.cls } : Subject) = s
  rw [hrc, ht, ← hcls]

/-- Witness for C3: data class 0, role 1, an un-roled subject. -/
theorem revoke_assign_restores_base_witness :
    assign W1 1 ⟨7, .decl 0, ∅⟩ = .ok ⟨7, .comp 1 (.decl 0) [0, 1], ∅⟩
  ∧ revoke W1 1 ⟨7, .comp 1 (.decl 0) [0, 1], ∅⟩ = ⟨7, .decl 0, ∅⟩ :=
  ⟨rfl,
    revoke_assign_restores_base W1 0 1 ⟨7, .decl 0, ∅⟩ ⟨7, .comp 1 (.decl 0) [0, 1], ∅⟩
      rfl (by decide) (by decide) rfl⟩

/-- Counterexample for C3 as stated: a subject already playing role 1 has a
behavioral type not including role 2, yet `revoke(2, assign(2, s))` does not
restore that type — `revoke` keys `newclass` on the *current* (three-base)
class, so it builds a fresh composite instead of returning the one the
subject started with. -/
theorem revoke_assign_identity_counterexample :
    (PyCls.comp 1 (.decl 0) [0, 1]).isSub W1 2 = false
  ∧ assign W1 2 ⟨10, .comp 1 (.decl 0) [0, 1], ∅⟩ =
      .ok ⟨10, .comp 2 (.comp 1 (.decl 0) [0, 1]) [0, 1, 2], ∅⟩
  ∧ (revoke W1 2 ⟨10, .comp 2 (.comp 1 (.decl 0) [0, 1]) [0, 1, 2], ∅⟩).cls
      ≠ PyCls.comp 1 (.decl 0) [0, 1] :=
  ⟨by decide, rfl, by decide⟩

/-- C7 (amended): assigning distinct, non-conflicting roles `r1` then `r2`
to an un-roled subject and revoking them in either order restores the
subject — identically — to its original declared base type; the
intermediate state after revoking only `r1` has the same ordered bases
`[b, r2]` as assigning only `r2` to a fresh subject would produce, but it is
a distinct composite object (see the counterexample for the claim's
object-identity version). -/
theorem multi_role_revocation_order_independence (W : World) (b r1 r2 : Nat)
    (s s1 s2 : Subject)
    (hcls : s.cls = .decl b)
    (hrt : (PyCls.decl b).isRoleType W = false)
    (hrole1 : W.isRole r1 = true)
    (hb1 : declIsSub W b r1 = false) (hb2 : declIsSub W b r2 = false)
    (h12 : declIsSub W r1 r2 = false)
    (h1 : assign W r1 s = .ok s1) (h2 : assign W r2 s1 = .ok s2) :
    revoke W r2 (revoke W r1 s2) = s
  ∧ revoke W r1 (revoke W r2 s2) = s
  ∧ (revoke W r1 s2).cls.basesIds W = [b, r2] := by
  have hne_br1 : b ≠ r1 := ne_of_declIsSub_eq_false W hb1
  have hne_br2 : b ≠ r2 := ne_of_declIsSub_eq_false W hb2
  have hne_r12 : r1 ≠ r2 := ne_of_declIsSub_eq_false W h12
  have hne_r21 : r2 ≠ r1 := hne_r12.symm
  have hns1 : s.cls.isSub W r1 = false := by
    rw [hcls]; simpa [PyCls.isSub] using hb1
  have ht1 := assign_ok_inv W r1 s s1 hns1 h1
  have hs1cls : s1.cls = .comp r1 (.decl b) [b, r1] := by
    rw [ht1]; simp [newclass, newRolebases, hcls, hrt]
  have hns2 : s1.cls.isSub W r2 = false := by
    rw [hs1cls]; simp [PyCls.isSub, hb2, h12]
  have ht2 := assign_ok_inv W r2 s1 s2 hns2 h2
  have hs2cls : s2.cls = .comp r2 (.comp r1 (.decl b) [b, r1]) [b, r1, r2] := by
    rw [ht2]
    simp [newclass, newRolebases, hs1cls, PyCls.isRoleType, PyCls.basesIds,
      declIsRole_of_isRole W hrole1]
  have hrv1 : revokeCls W r1 (PyCls.comp r2 (.comp r1 (.decl b) [b, r1]) [b, r1, r2])
      = .comp r1 (.comp r2 (.comp r1 (.decl b) [b, r1]) [b, r1, r2]) [b, r2] := by
    simp [revokeCls, PyCls.isSub, PyCls.basesIds, declIsSub_self,
      List.filter_cons, hne_br1, hne_r21, newclass]
  have hrv2 : revokeCls W r2
      (PyCls.comp r1 (.comp r2 (.comp r1 (.decl b) [b, r1]) [b, r1, r2]) [b, r2])
      = .decl b := by
    simp [revokeCls, PyCls.isSub, PyCls.basesIds, declIsSub_self,
      List.filter_cons, hne_br2, newclass]
  have hrv2' : revokeCls W r2 (PyCls.comp r2 (.comp r1 (.decl b) [b, r1]) [b, r1, r2])
      = .comp r2 (.comp r2 (.comp r1 (.decl b) [b, r1]) [b, r1, r2]) [b, r1] := by
    simp [revokeCls, PyCls.isSub, PyCls.basesIds, declIsSub_self,
      List.filter_cons, hne_br2, hne_r12, newclass]
  have hrv1' : revokeCls W r1
      (PyCls.comp r2 (.comp r2 (.comp r1 (.decl b) [b, r1]) [b, r1, r2]) [b, r1])
      = .decl b := by
    simp [revokeCls, PyCls.isSub, PyCls.basesIds, declIsSub_self,
      List.filter_cons, hne_br1, newclass]
  refine ⟨?_, ?_, ?_⟩
  · have key : revoke W r2 (revoke W r1 s2)
        = ⟨s2.id, revokeCls W r2 (revokeCls W r1 s2.cls), s2.instFields⟩ := rfl
    rw [key, hs2cls, hrv1, hrv2, ht2, ht1, ← hcls]
  · have key : revoke W r1 (revoke W r2 s2)
        = ⟨s2.id, revokeCls W r1 (revokeCls W r2 s2.cls), s2.instFields⟩ := rfl
    rw [key, hs2cls, hrv2', hrv1', ht2, ht1, ← hcls]
  · have key : (revoke W r1 s2).cls = revokeCls W r1 s2.cls := rfl
    rw [key, hs2cls, hrv1]
    rfl

/-- Witness for C7: data class 0, roles 1 and 2, an un-roled subject. -/
theorem multi_role_revocation_order_independence_witness :
    assign W1 1 ⟨7, .decl 0, ∅⟩ = .ok ⟨7, .comp 1 (.decl 0) [0, 1], ∅⟩
  ∧ assign W1 2 ⟨7, .comp 1 (.decl 0) [0, 1], ∅⟩ =
      .ok ⟨7, .comp 2 (.comp 1 (.decl 0) [0, 1]) [0, 1, 2], ∅⟩
  ∧ revoke W1 2 (revoke W1 1 ⟨7, .comp 2 (.comp 1 (.decl 0) [0, 1]) [0, 1, 2], ∅⟩)
      = ⟨7, .decl 0, ∅⟩ :=
  ⟨rfl, rfl,
    (multi_role_revocation_order_independence W1 0 1 2 ⟨7, .decl 0, ∅⟩
      ⟨7, .comp 1 (.decl 0) [0, 1], ∅⟩
      ⟨7, .comp 2 (.comp 1 (.decl 0) [0, 1]) [0, 1, 2], ∅⟩
      rfl (by decide) (by decide) (by decide) (by decide) (by decide) rfl rfl).1⟩

/-- Counterexample for C7 as stated: after assigning roles 1 then 2 to a
subject of data class 0, revoking role 1 yields a composite with bases
`[0, 2]` that is *not* the composite obtained by assigning only role 2 to a
fresh subject of class 0 — `revoke` keys the cache on the current three-base
class, so the two types differ by identity. -/
theorem multi_role_intermediate_identity_counterexample :
    assignSeq W1 [1, 2] ⟨7, .decl 0, ∅⟩ =
      .ok ⟨7, .comp 2 (.comp 1 (.decl 0) [0, 1]) [0, 1, 2], ∅⟩
  ∧ assign W1 2 ⟨8, .decl 0, ∅⟩ = .ok ⟨8, .comp 2 (.decl 0) [0, 2], ∅⟩
  ∧ (revoke W1 1 ⟨7, .comp 2 (.comp 1 (.decl 0) [0, 1]) [0, 1, 2], ∅⟩).cls
      ≠ PyCls.comp 2 (.decl 0) [0, 2] :=
  ⟨rfl, rfl, by decide⟩

/-- C4: `played_by` characterized on every path.  If the role is already
active on entry, the guard yields the subject unchanged and performs no
assignment and no revocation on exit (so reentrant scopes compose).  If it
is not active, the entry `assign` runs; when it succeeds the body runs on
the (in-place retagged) subject and the role is revoked from the body's
final state on *every* exit path — the body's result, success or failure,
is propagated unchanged (`mapError` preserves the original failure); when
the entry `assign` itself raises, the body never runs. -/
theorem played_by_scoped_revocation {ε α : Type} (W : World) (r : Nat)
    (body : Subject → Except ε α × Subject) (s : Subject) :
    (s.cls.isSub W r = true →
      played_by W r body s = ((body s).1.mapError PBErr.bodyErr, (body s).2))
  ∧ (∀ e, s.cls.isSub W r = false → assign W r s = .error e →
      played_by W r body s = (.error (.assignErr e), s))
  ∧ (∀ s1, s.cls.isSub W r = false → assign W r s = .ok s1 →
      played_by W r body s =
        ((body s1).1.mapError PBErr.bodyErr, revoke W r (body s1).2)) := by
  refine ⟨?_, ?_, ?_⟩
  · intro h
    simp [played_by, h]
  · intro e h ha
    simp [played_by, h, ha]
  · intro s1 h ha
    simp [played_by, h, ha]

/-- Witness for C4: a failing body (`error 3`) inside a `played_by` scope on
an un-roled subject — the role is assigned, the body's failure propagates,
and the subject comes out revoked back to its base class. -/
theorem played_by_scoped_revocation_witness :
    (PyCls.decl 0).isSub W1 1 = false
  ∧ assign W1 1 ⟨7, .decl 0, ∅⟩ = .ok ⟨7, .comp 1 (.decl 0) [0, 1], ∅⟩
  ∧ played_by W1 1 (fun u => ((Except.error 3 : Except Nat Nat), u)) ⟨7, .decl 0, ∅⟩
      = (.error (.bodyErr 3), ⟨7, .decl 0, ∅⟩) :=
  ⟨by decide, rfl, by
    rw [(played_by_scoped_revocation W1 1
      (fun u => ((Except.error 3 : Except Nat Nat), u)) ⟨7, .decl 0, ∅⟩).2.2
      ⟨7, .comp 1 (.decl 0) [0, 1], ∅⟩ (by decide) rfl]
    rfl⟩

/-- C5 (amended): `ManagedContext.__exit__` pops the top of the stack, a
mismatched (or empty-stack) pop is fatal, and the recorded bindings are
revoked in the *same* order they were applied on entry (Python dicts
iterate in insertion order — not in reverse, as the claim states; see the
counterexample). -/
theorem mcExit_pop_and_revocation_order (W : World) (mc : ManagedCtx)
    (rest : List Nat) (h : Heap) :
    (mcExit W mc (mc.ctxId :: rest) h =
      some (rest, mc.bindings.foldl (fun hh b => heapRevoke W b.2 (mc.slot b.1) hh) h))
  ∧ (∀ top, top ≠ mc.ctxId → mcExit W mc (top :: rest) h = none)
  ∧ mcExit W mc [] h = none := by
  refine ⟨?_, ?_, rfl⟩
  · simp [mcExit, revokeBindings_eq_foldl]
  · intro top hne
    simp [mcExit, hne]

/-- The two-binding context frame used for C5's witness and counterexample:
slots `x` and `y` are both bound to the same object (id 7). -/
def MC5 : ManagedCtx := ⟨99, [("x", 1), ("y", 2)], fun _ => 7⟩

/-- Heap for C5: object 7 plays roles 1, 2 and 3 over data class 0. -/
def HP5 : Heap :=
  [(7, ⟨.comp 3 (.comp 2 (.comp 1 (.decl 0) [0, 1]) [0, 1, 2]) [0, 1, 2, 3], ∅⟩)]

/-- Witness for C5: the mismatched-pop case is fatal. -/
theorem mcExit_pop_and_revocation_order_witness :
    (3 ≠ MC5.ctxId) ∧ mcExit W1 MC5 [3] HP5 = none :=
  ⟨by decide, (mcExit_pop_and_revocation_order W1 MC5 [] HP5).2.1 3 (by decide)⟩

/-- Counterexample for C5 as stated: with two bindings whose slots name the
same object, revoking in application order (the code) and in reverse order
(the claim) leave the object with different — non-identical — composite
classes, because each revocation keys the cache on the class it starts
from. -/
theorem mcExit_reverse_order_counterexample :
    mcExit W1 MC5 [99] HP5 ≠ mcExitRevSpec W1 MC5 [99] HP5 := by decide

/-- C6 (amended): `current_context` returns the most recently pushed, not
yet popped context of the calling thread's stack: after pushing `a` then
`b` it returns `b`, after popping `b` it returns `a`, and on an empty stack
it returns `None` — it does not raise (the claim's `NoActiveContextError`
does not exist in the code; see the counterexample). -/
theorem current_context_lifo (a b : Nat) (st : List Nat) :
    current_context (pushCtx b (pushCtx a st)) = some b
  ∧ current_context (popCtx (pushCtx b (pushCtx a st))) = some a
  ∧ current_context (popCtx (popCtx (pushCtx b (pushCtx a [])))) = none
  ∧ current_context [] = none :=
  ⟨rfl, rfl, rfl, rfl⟩

/-- Counterexample for C6 as stated: on an empty stack the code returns the
value `None` (`self.__dict__["__stack"][-1]` with `IndexError` caught),
whereas the spec-modelled `current()` fails with `NoActiveContextError`. -/
theorem current_context_error_counterexample :
    current_context [] = none
  ∧ currentContextSpec [] = .error .noActiveContext :=
  ⟨rfl, rfl⟩

/-- C9 (amended): the factory `lookup` is memoized per subject type.  A
cache hit returns the memoized role and leaves the state unchanged — even
if the registry has changed since the entry was stored.  On a miss,
`lookup` walks the subject type's mro from most specific to least specific
and returns (and caches) the first role implementation registered in the
current registry; when nothing matches it fails with `NoRoleError` —
uncached — exactly when the stored `_strict` flag is set, and otherwise
falls back to (and caches) the generic role itself.  `register` changes
`_strict` and clears the lookup cache only on its very first call, so
registrations after the first neither change strictness nor invalidate
stale cached lookups (see the counterexample).  `assign` applies the
looked-up role to the subject via `RoleType.assign`. -/
theorem factory_lookup_most_specific (f : RoleFactory) (W : World) (cls : PyCls) :
    (∀ rc, flLookup f.lookupCache cls = some rc → f.lookup W cls = (.ok rc, f))
  ∧ (∀ t rc, flLookup f.lookupCache cls = none →
      (mroIds W cls).find? (fun u => (assocGet f.factory u).isSome) = some t →
      assocGet f.factory t = some rc →
      f.lookup W cls = (.ok rc, { f with lookupCache := (cls, rc) :: f.lookupCache }))
  ∧ (flLookup f.lookupCache cls = none →
      (mroIds W cls).all (fun u => (assocGet f.factory u).isNone) = true →
      f.lookup W cls =
        (if f.strict then (.error .noRole, f)
         else (.ok f.selfRole,
               { f with lookupCache := (cls, f.selfRole) :: f.lookupCache })))
  ∧ (∀ (s : Subject) rc f', s.cls = cls → f.lookup W cls = (.ok rc, f') →
      f.assignF W s = (assign W rc s, f'))
  ∧ (∀ c rc st, f.hasFactory = true →
      (f.register c rc st).strict = f.strict
      ∧ (f.register c rc st).lookupCache = f.lookupCache)
  ∧ (∀ c rc st, f.hasFactory = false →
      (f.register c rc st).strict = st ∧ (f.register c rc st).lookupCache = []) := by
  refine ⟨?_, ?_, ?_, ?_, ?_, ?_⟩
  · intro rc hhit
    simp [RoleFactory.lookup, hhit]
  · intro t rc hmiss hf hg
    simp [RoleFactory.lookup, hmiss, lookupRaw,
      firstRegistered_eq_of_find? f.factory _ t rc hf hg]
  · intro hmiss hall
    cases hstrict : f.strict with
    | true =>
      simp [RoleFactory.lookup, hmiss, lookupRaw, hstrict,
        firstRegistered_eq_none_of_all f.factory _ hall]
    | false =>
      simp [RoleFactory.lookup, hmiss, lookupRaw, hstrict,
        firstRegistered_eq_none_of_all f.factory _ hall]
  · intro s rc f' hs hl
    simp [RoleFactory.assignF, hs, hl]
  · intro c rc st h
    simp [RoleFactory.register, h]
  · intro c rc st h
    simp [RoleFactory.register, h]

/-- Factory for C9's witness: generic role 5, with class 0 registered to
the concrete role implementation 6 (a subrole, so `strict` is stored
`false`; the first `register` call clears the lookup cache). -/
def FW9 : RoleFactory := RoleFactory.register ⟨5, false, [], false, []⟩ 0 6 false

/-- Witness for C9: with an empty lookup cache, looking up a subject of
class 0 finds the registration for class 0 (the most specific entry of its
mro), returns role 6 and caches it. -/
theorem factory_lookup_most_specific_witness :
    flLookup FW9.lookupCache (.decl 0) = none
  ∧ (mroIds W1 (.decl 0)).find? (fun u => (assocGet FW9.factory u).isSome) = some 0
  ∧ assocGet FW9.factory 0 = some 6
  ∧ FW9.lookup W1 (.decl 0) =
      (.ok 6, { FW9 with lookupCache := [(.decl 0, 6)] }) :=
  ⟨by decide, by decide, by decide,
    (factory_lookup_most_specific FW9 W1 (.decl 0)).2.1 0 6
      (by decide) (by decide) (by decide)⟩

/-- The stale-cache trace for C9's counterexample, step 1: the first
registration maps class 0 to subrole 6 (`_strict := False`, cache
cleared). -/
def Fac9a : RoleFactory := RoleFactory.register ⟨5, false, [], false, []⟩ 0 6 false

/-- Step 2: a lookup on the unregistered class 3 misses, falls back to the
generic role 5, and caches that fallback for class 3. -/
def Fac9b : RoleFactory := (Fac9a.lookup W1 (.decl 3)).2

/-- Step 3: a second registration maps class 3 directly to a concrete
implementation 7 — the `try` branch of `register`, which does *not* clear
the lookup cache. -/
def FacStale : RoleFactory := Fac9b.register 3 7 false

/-- Counterexample for C9 as stated: after the second registration, class 3
has a registered implementation (role 7) that is the first registered match
walking its mro, yet `lookup` returns the stale cached fallback role 5 —
`register` cleared the lookup cache only on its first call, so the walk
never runs again for class 3. -/
theorem factory_stale_lookup_counterexample :
    assocGet FacStale.factory 3 = some 7
  ∧ firstRegistered FacStale.factory (mroIds W1 (.decl 3)) = some 7
  ∧ (FacStale.lookup W1 (.decl 3)).1 = .ok 5
  ∧ (5 : Nat) ≠ 7 :=
  ⟨rfl, rfl, rfl, by decide⟩

/-- C10: the `@cached` wrapper on `class_fields` memoizes per class object:
once a class's member set is in the cache, every later call returns that
very set and leaves the cache untouched, *regardless of the current class
dictionaries* (`tbl'` is arbitrary and absent from the result) — so members
added to a class or role after its first conflict check are invisible to
all subsequent `assign` conflict checks; on a miss the set is computed from
the current table and stored; and the `overrides` computation re-reads only
the subject's per-instance fields (`inst`) fresh. -/
theorem class_fields_memoization (W : World) (tbl tbl' : Nat → Finset String)
    (cache : List (PyCls × Finset String)) (c : PyCls) (v : Finset String) :
    (cfLookup cache c = some v → class_fields_cached W tbl' cache c = (v, cache))
  ∧ (cfLookup cache c = none →
      class_fields_cached W tbl cache c =
        (classFieldsAt W tbl c, (c, classFieldsAt W tbl c) :: cache))
  ∧ (∀ rC sC vr vs inst, cfLookup cache rC = some vr → cfLookup cache sC = some vs →
      overridesCached W tbl' cache rC sC inst = (vr ∩ (vs ∪ inst), cache)) := by
  refine ⟨?_, ?_, ?_⟩
  · intro hhit
    simp [class_fields_cached, hhit]
  · intro hmiss
    simp [class_fields_cached, hmiss]
  · intro rC sC vr vs inst hr hs
    simp [overridesCached, class_fields_cached, hr, hs]

/-- Witness for C10: with role 1's and class 0's field sets already cached,
a mutated class table (every class now declares `mutated`) is invisible to
the cached lookup and to the conflict check, while the instance fields are
read fresh. -/
theorem class_fields_memoization_witness :
    cfLookup [(PyCls.decl 1, {"transfer"}), (PyCls.decl 0, ∅)] (PyCls.decl 1)
      = some {"transfer"}
  ∧ cfLookup [(PyCls.decl 1, {"transfer"}), (PyCls.decl 0, ∅)] (PyCls.decl 0) = some ∅
  ∧ overridesCached W1 (fun _ => {"mutated"})
      [(PyCls.decl 1, {"transfer"}), (PyCls.decl 0, ∅)]
      (PyCls.decl 1) (PyCls.decl 0) {"transfer"}
      = ({"transfer"} ∩ (∅ ∪ {"transfer"}),
          [(PyCls.decl 1, {"transfer"}), (PyCls.decl 0, ∅)]) :=
  ⟨by decide, by decide,
    (class_fields_memoization W1 (fun _ => ∅) (fun _ => {"mutated"})
      [(PyCls.decl 1, {"transfer"}), (PyCls.decl 0, ∅)] (PyCls.decl 0) ∅).2.2
      (PyCls.decl 1) (PyCls.decl 0) {"transfer"} ∅ {"transfer"}
      (by decide) (by decide)⟩

end RolesLib
